import Mathlib

/-!
# Disk resize orchestration (`linode/instancedisk/helper.go`)

A shallow embedding of `handleDiskResize`.  The Linode client, the event
poller and the `helper.GetCurrentBootedConfig` helper are collaborators whose
code is outside this package; they are taken as a parameter (`Client`), an
arbitrary deterministic state machine over a remote state `σ`.  Every call made
on a collaborator is recorded, with its reply, in a trace, so that properties
of the call sequence can be stated.

Go `int` values (identifiers, sizes, seconds) are modelled as `Int`; no
arithmetic is performed on them, only comparisons and `%d` formatting.
A Go `error` is modelled by its message (`err.Error()`), the only part of it
the function uses (through the `%s` verb).  `context.Context` is threaded
through to the collaborators unchanged and is part of their behaviour.
-/

namespace Linode

/-! ## Data model (the parts of `linodego` the function touches) -/

/-- Entity kinds of `linodego.EntityType`. -/
inductive EntityType where
  | EntityLinode
  | EntityDisk
  | EntityVolume
  deriving DecidableEq, Repr

/-- Event actions of `linodego.EventAction` (the three used here and two
neighbours). -/
inductive EventAction where
  | ActionLinodeShutdown
  | ActionLinodeBoot
  | ActionLinodeReboot
  | ActionDiskResize
  | ActionDiskCreate
  deriving DecidableEq, Repr

/-- Disk statuses of `linodego.DiskStatus`. -/
inductive DiskStatus where
  | DiskReady
  | DiskNotReady
  | DiskDeleting
  deriving DecidableEq, Repr

/-- The fields of `linodego.InstanceDisk` that are read. -/
structure InstanceDisk where
  ID : Int
  Size : Int
  Status : DiskStatus
  deriving DecidableEq, Repr

/-- An opaque handle for `*linodego.EventPoller`. -/
structure EventPoller where
  token : Nat
  deriving DecidableEq, Repr

/-- A call made on a collaborator, with its arguments. -/
inductive Call where
  | GetCurrentBootedConfig (instID : Int)
  | NewEventPoller (id : Int) (entityType : EntityType) (action : EventAction)
  | ShutdownInstance (linodeID : Int)
  | WaitForFinished (p : EventPoller) (timeoutSeconds : Int)
  | GetInstanceDisk (linodeID diskID : Int)
  | ResizeInstanceDisk (linodeID diskID size : Int)
  | WaitForInstanceDiskStatus (instanceID diskID : Int) (status : DiskStatus)
      (timeoutSeconds : Int)
  | BootInstance (linodeID configID : Int)
  deriving DecidableEq, Repr

/-- What a collaborator answered: a non-nil error, or a nil error with the
value returned, if any. -/
inductive Reply where
  | err (e : String)
  | ok
  | config (id : Int)
  | poller (p : EventPoller)
  | disk (d : InstanceDisk)
  deriving DecidableEq, Repr

/-- One entry of the call trace. -/
structure Step where
  call : Call
  reply : Reply
  deriving DecidableEq, Repr

/-- A `tflog` record: level, message and the integer fields attached. -/
structure LogEntry where
  level : String
  msg : String
  fields : List (String × Int)
  deriving DecidableEq, Repr

/-- The collaborators: the methods of `linodego.Client` that are called, the
`WaitForFinished` method of the poller a registration returns, and the helper
`helper.GetCurrentBootedConfig`, each a transition of the remote state.  A
result `(v, err)` of a Go call is an `Except`: the value is only ever read when
`err == nil`.  A call that returns just an `error` gives `none` for nil.
`WaitForFinished` returns `(*Event, error)`; the event is discarded by the
caller, so only the error is kept. -/
structure Client (σ : Type) where
  GetCurrentBootedConfig : Int → σ → Except String Int × σ
  NewEventPoller : Int → EntityType → EventAction → σ → Except String EventPoller × σ
  ShutdownInstance : Int → σ → Option String × σ
  WaitForFinished : EventPoller → Int → σ → Option String × σ
  GetInstanceDisk : Int → Int → σ → Except String InstanceDisk × σ
  ResizeInstanceDisk : Int → Int → Int → σ → Option String × σ
  WaitForInstanceDiskStatus : Int → Int → DiskStatus → Int → σ → Except String InstanceDisk × σ
  BootInstance : Int → Int → σ → Option String × σ

/-- The state threaded through a run: the remote side, the calls made so far
(oldest first) and the log records written so far. -/
structure World (σ : Type) where
  remote : σ
  trace : List Step
  logs : List LogEntry

/-- A computation that may return early with an error message. -/
def Exec (σ α : Type) : Type := World σ → Except String α × World σ

namespace Exec

variable {σ α β : Type}

/-- Return a value. -/
def ret (a : α) : Exec σ α := fun w => (.ok a, w)

/-- Return from the function with the error `e`. -/
def fail (e : String) : Exec σ α := fun w => (.error e, w)

/-- Sequencing; an error ends the run. -/
def andThen (m : Exec σ α) (f : α → Exec σ β) : Exec σ β := fun w =>
  match m w with
  | (.ok a, w1) => f a w1
  | (.error e, w1) => (.error e, w1)

instance : Monad (Exec σ) where
  pure := ret
  bind := andThen

/-- The value-returning call pattern `v, err := f(...)`: perform the call,
record it, and on a non-nil error return `wrap err` from the function. -/
def callV (c : Call) (f : σ → Except String α × σ) (toReply : α → Reply)
    (wrap : String → String) : Exec σ α := fun w =>
  match f w.remote with
  | (.ok v, s) => (.ok v, { w with remote := s, trace := w.trace ++ [⟨c, toReply v⟩] })
  | (.error e, s) => (.error (wrap e), { w with remote := s, trace := w.trace ++ [⟨c, .err e⟩] })

/-- The error-only call pattern `if err := f(...); err != nil`. -/
def callE (c : Call) (f : σ → Option String × σ) (wrap : String → String) : Exec σ Unit :=
  fun w =>
  match f w.remote with
  | (none, s) => (.ok (), { w with remote := s, trace := w.trace ++ [⟨c, .ok⟩] })
  | (some e, s) => (.error (wrap e), { w with remote := s, trace := w.trace ++ [⟨c, .err e⟩] })

/-- A `tflog` call: append a record; no other effect. -/
def tflog (level msg : String) (fields : List (String × Int)) : Exec σ Unit := fun w =>
  (.ok (), { w with logs := w.logs ++ [⟨level, msg, fields⟩] })

end Exec

/-- The `%d` verb on a Go `int`. -/
def fmtD (n : Int) : String := toString n

open Exec in
/-- The function `handleDiskResize` of `helper.go`, lines 23 to 108. -/
def handleDiskResize {σ : Type} (client : Client σ)
    (instID diskID newSize timeoutSeconds : Int) : Exec σ Unit := do
  let configID ← callV (.GetCurrentBootedConfig instID)
    (client.GetCurrentBootedConfig instID) .config (fun err => err)

  let shouldShutdown := configID != 0

  if shouldShutdown then
    tflog "info" "Shutting down Instance for disk resize" []

    let p ← callV (.NewEventPoller instID .EntityLinode .ActionLinodeShutdown)
      (client.NewEventPoller instID .EntityLinode .ActionLinodeShutdown) .poller
      (fun err => "failed to poll for events: " ++ err)

    callE (.ShutdownInstance instID) (client.ShutdownInstance instID)
      (fun err => "failed to shutdown instance: " ++ err)

    tflog "debug" "Waiting for Instance shutdown operation to complete" []

    callE (.WaitForFinished p timeoutSeconds) (client.WaitForFinished p timeoutSeconds)
      (fun err => "failed to wait for instance shutdown: " ++ err)

    tflog "debug" "Instance finished shutting down" []

  let disk ← callV (.GetInstanceDisk instID diskID)
    (client.GetInstanceDisk instID diskID) .disk
    (fun err => "failed to get instance disk: " ++ err)

  let p ← callV (.NewEventPoller instID .EntityLinode .ActionDiskResize)
    (client.NewEventPoller instID .EntityLinode .ActionDiskResize) .poller
    (fun err => "failed to poll for events: " ++ err)

  tflog "info" "Resizing Instance disk" [("old_size", disk.Size), ("new_size", newSize)]

  callE (.ResizeInstanceDisk instID diskID newSize)
    (client.ResizeInstanceDisk instID diskID newSize)
    (fun err => "failed to resize disk: " ++ err)

  -- Wait for the resize event to complete
  callE (.WaitForFinished p timeoutSeconds) (client.WaitForFinished p timeoutSeconds)
    (fun err => "failed to wait for disk resize: " ++ err)

  -- Check to see if the resize operation worked
  let updatedDisk ← callV (.WaitForInstanceDiskStatus instID disk.ID .DiskReady timeoutSeconds)
    (client.WaitForInstanceDiskStatus instID disk.ID .DiskReady timeoutSeconds) .disk
    (fun err => "failed to wait for disk ready: " ++ err)
  if updatedDisk.Size != newSize then
    fail ("failed to resize disk " ++ fmtD disk.ID ++ " from " ++ fmtD disk.Size
      ++ " to " ++ fmtD newSize)

  tflog "debug" "Resize operation complete" []

  -- Reboot the instance if necessary
  if shouldShutdown then
    tflog "info" "Rebooting instance to previously booted config" []

    let p ← callV (.NewEventPoller instID .EntityLinode .ActionLinodeBoot)
      (client.NewEventPoller instID .EntityLinode .ActionLinodeBoot) .poller
      (fun err => "failed to poll for events: " ++ err)

    callE (.BootInstance instID configID) (client.BootInstance instID configID)
      (fun err => "failed to boot instance " ++ fmtD instID ++ " " ++ fmtD configID
        ++ ": " ++ err)

    callE (.WaitForFinished p timeoutSeconds) (client.WaitForFinished p timeoutSeconds)
      (fun err => "failed to wait for instance boot: " ++ err)

    tflog "debug" "Reboot event finished" []

  return ()

/-- Go's `error` return value of a finished computation: `none` for nil. -/
def errorOf {σ : Type} (r : Except String Unit × World σ) : Option String :=
  match r.1 with
  | .ok _ => none
  | .error e => some e

/-- A run from a fresh state: the error returned (`none` for nil) and the
calls made, oldest first. -/
def run {σ : Type} (client : Client σ) (instID diskID newSize timeoutSeconds : Int)
    (s : σ) : Option String × List Step :=
  (errorOf (handleDiskResize client instID diskID newSize timeoutSeconds ⟨s, [], []⟩),
    (handleDiskResize client instID diskID newSize timeoutSeconds ⟨s, [], []⟩).2.trace)

/-! ## Concrete collaborators used to exercise the model -/

/-- A client whose remote state counts the calls answered so far.  The call
numbered `failAt` (from 0) fails with `"boom"`; every other call succeeds.  The
booted-configuration query answers `config`, `GetInstanceDisk` answers `pre`,
the status wait answers `post`, and the poller handed out by a registration
carries the number of the call that created it. -/
def scripted (config : Int) (pre post : InstanceDisk) (failAt : Option Nat) : Client Nat where
  GetCurrentBootedConfig := fun _ n =>
    (if failAt = some n then .error "boom" else .ok config, n + 1)
  NewEventPoller := fun _ _ _ n =>
    (if failAt = some n then .error "boom" else .ok ⟨n⟩, n + 1)
  ShutdownInstance := fun _ n => (if failAt = some n then some "boom" else none, n + 1)
  WaitForFinished := fun _ _ n => (if failAt = some n then some "boom" else none, n + 1)
  GetInstanceDisk := fun _ _ n => (if failAt = some n then .error "boom" else .ok pre, n + 1)
  ResizeInstanceDisk := fun _ _ _ n => (if failAt = some n then some "boom" else none, n + 1)
  WaitForInstanceDiskStatus := fun _ _ _ _ n =>
    (if failAt = some n then .error "boom" else .ok post, n + 1)
  BootInstance := fun _ _ n => (if failAt = some n then some "boom" else none, n + 1)

/-- Recognises a `BootInstance` call. -/
def Call.isBoot : Call → Bool
  | .BootInstance _ _ => true
  | _ => false

/-- Recognises the booted-configuration query. -/
def Call.isConfigQuery : Call → Bool
  | .GetCurrentBootedConfig _ => true
  | _ => false

/-- The triggering requests: for each, the instance it addresses and the event
action under which its completion is reported. -/
def Call.trigger : Call → Option (Int × EventAction)
  | .ShutdownInstance id => some (id, .ActionLinodeShutdown)
  | .ResizeInstanceDisk id _ _ => some (id, .ActionDiskResize)
  | .BootInstance id _ => some (id, .ActionLinodeBoot)
  | _ => none

/-- The message returned when the call `c` fails with the error text `e`: the
format strings of lines 26 to 101.  `prev` is the call made just before `c`;
it tells the three completion waits apart. -/
def errorMessage (prev : Option Call) (c : Call) (e : String) : String :=
  match c with
  | .GetCurrentBootedConfig _ => e
  | .NewEventPoller _ _ _ => "failed to poll for events: " ++ e
  | .ShutdownInstance _ => "failed to shutdown instance: " ++ e
  | .WaitForFinished _ _ =>
    match prev with
    | some (.ShutdownInstance _) => "failed to wait for instance shutdown: " ++ e
    | some (.BootInstance _ _) => "failed to wait for instance boot: " ++ e
    | _ => "failed to wait for disk resize: " ++ e
  | .GetInstanceDisk _ _ => "failed to get instance disk: " ++ e
  | .ResizeInstanceDisk _ _ _ => "failed to resize disk: " ++ e
  | .WaitForInstanceDiskStatus _ _ _ _ => "failed to wait for disk ready: " ++ e
  | .BootInstance i c => "failed to boot instance " ++ fmtD i ++ " " ++ fmtD c ++ ": " ++ e

/-- Disk 100, ready, with the given size: the disk of the end-to-end
scenarios. -/
def disk100 (size : Int) : InstanceDisk := ⟨100, size, .DiskReady⟩

/-- The client `client` with the size reported by `GetInstanceDisk` replaced by
`size`; the identifier, the status, failures and the remote state are
unchanged. -/
def Client.withDiskSize {σ : Type} (client : Client σ) (size : Int) : Client σ :=
  { client with
    GetInstanceDisk := fun linodeID diskID s =>
      match client.GetInstanceDisk linodeID diskID s with
      | (.ok d, s1) => (.ok { d with Size := size }, s1)
      | (.error e, s1) => (.error e, s1) }

/-! ## The possible runs

`Shape` lists every outcome `handleDiskResize` can have, as the error returned
together with the trace of calls.  It is a description used in proofs;
`run_shape` below shows that every run has one of these outcomes. -/

/-- The booted-configuration query and its reply. -/
abbrev stQuery (instID : Int) (r : Reply) : Step := ⟨.GetCurrentBootedConfig instID, r⟩

/-- An event-watch registration on the instance and its reply. -/
abbrev stWatch (instID : Int) (a : EventAction) (r : Reply) : Step :=
  ⟨.NewEventPoller instID .EntityLinode a, r⟩

/-- A completion wait on the watch `p` and its reply. -/
abbrev stWait (p : EventPoller) (T : Int) (r : Reply) : Step := ⟨.WaitForFinished p T, r⟩

/-- The shutdown request and its reply. -/
abbrev stShutdown (instID : Int) (r : Reply) : Step := ⟨.ShutdownInstance instID, r⟩

/-- The disk read and its reply. -/
abbrev stGetDisk (instID diskID : Int) (r : Reply) : Step := ⟨.GetInstanceDisk instID diskID, r⟩

/-- The resize request and its reply. -/
abbrev stResize (instID diskID newSize : Int) (r : Reply) : Step :=
  ⟨.ResizeInstanceDisk instID diskID newSize, r⟩

/-- The wait for the disk to be ready and its reply. -/
abbrev stStatus (instID id T : Int) (r : Reply) : Step :=
  ⟨.WaitForInstanceDiskStatus instID id .DiskReady T, r⟩

/-- The boot request and its reply. -/
abbrev stBoot (instID configID : Int) (r : Reply) : Step := ⟨.BootInstance instID configID, r⟩

/-- The message of the size check of lines 80 to 83. -/
abbrev sizeError (disk : InstanceDisk) (newSize : Int) : String :=
  "failed to resize disk " ++ fmtD disk.ID ++ " from " ++ fmtD disk.Size ++ " to " ++ fmtD newSize

/-- Every outcome of a run, by the place where it ends.  `C` is the booted
configuration, `p1`, `p2`, `p3` the watches of the shutdown, resize and boot
phases, `d` the disk read before the resize and `u` the disk after it. -/
inductive Shape (instID diskID newSize T : Int) : Option String × List Step → Prop
  | queryFailed (e : String) :
      Shape instID diskID newSize T (some e, [stQuery instID (.err e)])
  | shutdownWatchFailed (C : Int) (e : String) (hC : C ≠ 0) :
      Shape instID diskID newSize T (some ("failed to poll for events: " ++ e),
        [stQuery instID (.config C), stWatch instID .ActionLinodeShutdown (.err e)])
  | shutdownRejected (C : Int) (p1 : EventPoller) (e : String) (hC : C ≠ 0) :
      Shape instID diskID newSize T (some ("failed to shutdown instance: " ++ e),
        [stQuery instID (.config C), stWatch instID .ActionLinodeShutdown (.poller p1),
         stShutdown instID (.err e)])
  | shutdownWaitFailed (C : Int) (p1 : EventPoller) (e : String) (hC : C ≠ 0) :
      Shape instID diskID newSize T (some ("failed to wait for instance shutdown: " ++ e),
        [stQuery instID (.config C), stWatch instID .ActionLinodeShutdown (.poller p1),
         stShutdown instID .ok, stWait p1 T (.err e)])
  | onDiskReadFailed (C : Int) (p1 : EventPoller) (e : String) (hC : C ≠ 0) :
      Shape instID diskID newSize T (some ("failed to get instance disk: " ++ e),
        [stQuery instID (.config C), stWatch instID .ActionLinodeShutdown (.poller p1),
         stShutdown instID .ok, stWait p1 T .ok, stGetDisk instID diskID (.err e)])
  | onResizeWatchFailed (C : Int) (p1 : EventPoller) (d : InstanceDisk) (e : String)
      (hC : C ≠ 0) :
      Shape instID diskID newSize T (some ("failed to poll for events: " ++ e),
        [stQuery instID (.config C), stWatch instID .ActionLinodeShutdown (.poller p1),
         stShutdown instID .ok, stWait p1 T .ok, stGetDisk instID diskID (.disk d),
         stWatch instID .ActionDiskResize (.err e)])
  | onResizeRejected (C : Int) (p1 p2 : EventPoller) (d : InstanceDisk) (e : String)
      (hC : C ≠ 0) :
      Shape instID diskID newSize T (some ("failed to resize disk: " ++ e),
        [stQuery instID (.config C), stWatch instID .ActionLinodeShutdown (.poller p1),
         stShutdown instID .ok, stWait p1 T .ok, stGetDisk instID diskID (.disk d),
         stWatch instID .ActionDiskResize (.poller p2), stResize instID diskID newSize (.err e)])
  | onResizeWaitFailed (C : Int) (p1 p2 : EventPoller) (d : InstanceDisk) (e : String)
      (hC : C ≠ 0) :
      Shape instID diskID newSize T (some ("failed to wait for disk resize: " ++ e),
        [stQuery instID (.config C), stWatch instID .ActionLinodeShutdown (.poller p1),
         stShutdown instID .ok, stWait p1 T .ok, stGetDisk instID diskID (.disk d),
         stWatch instID .ActionDiskResize (.poller p2), stResize instID diskID newSize .ok,
         stWait p2 T (.err e)])
  | onStatusWaitFailed (C : Int) (p1 p2 : EventPoller) (d : InstanceDisk) (e : String)
      (hC : C ≠ 0) :
      Shape instID diskID newSize T (some ("failed to wait for disk ready: " ++ e),
        [stQuery instID (.config C), stWatch instID .ActionLinodeShutdown (.poller p1),
         stShutdown instID .ok, stWait p1 T .ok, stGetDisk instID diskID (.disk d),
         stWatch instID .ActionDiskResize (.poller p2), stResize instID diskID newSize .ok,
         stWait p2 T .ok, stStatus instID d.ID T (.err e)])
  | onSizeMismatch (C : Int) (p1 p2 : EventPoller) (d u : InstanceDisk)
      (hC : C ≠ 0) (hu : u.Size ≠ newSize) :
      Shape instID diskID newSize T (some (sizeError d newSize),
        [stQuery instID (.config C), stWatch instID .ActionLinodeShutdown (.poller p1),
         stShutdown instID .ok, stWait p1 T .ok, stGetDisk instID diskID (.disk d),
         stWatch instID .ActionDiskResize (.poller p2), stResize instID diskID newSize .ok,
         stWait p2 T .ok, stStatus instID d.ID T (.disk u)])
  | bootWatchFailed (C : Int) (p1 p2 : EventPoller) (d u : InstanceDisk) (e : String)
      (hC : C ≠ 0) (hu : u.Size = newSize) :
      Shape instID diskID newSize T (some ("failed to poll for events: " ++ e),
        [stQuery instID (.config C), stWatch instID .ActionLinodeShutdown (.poller p1),
         stShutdown instID .ok, stWait p1 T .ok, stGetDisk instID diskID (.disk d),
         stWatch instID .ActionDiskResize (.poller p2), stResize instID diskID newSize .ok,
         stWait p2 T .ok, stStatus instID d.ID T (.disk u),
         stWatch instID .ActionLinodeBoot (.err e)])
  | bootRejected (C : Int) (p1 p2 p3 : EventPoller) (d u : InstanceDisk) (e : String)
      (hC : C ≠ 0) (hu : u.Size = newSize) :
      Shape instID diskID newSize T
        (some ("failed to boot instance " ++ fmtD instID ++ " " ++ fmtD C ++ ": " ++ e),
        [stQuery instID (.config C), stWatch instID .ActionLinodeShutdown (.poller p1),
         stShutdown instID .ok, stWait p1 T .ok, stGetDisk instID diskID (.disk d),
         stWatch instID .ActionDiskResize (.poller p2), stResize instID diskID newSize .ok,
         stWait p2 T .ok, stStatus instID d.ID T (.disk u),
         stWatch instID .ActionLinodeBoot (.poller p3), stBoot instID C (.err e)])
  | bootWaitFailed (C : Int) (p1 p2 p3 : EventPoller) (d u : InstanceDisk) (e : String)
      (hC : C ≠ 0) (hu : u.Size = newSize) :
      Shape instID diskID newSize T (some ("failed to wait for instance boot: " ++ e),
        [stQuery instID (.config C), stWatch instID .ActionLinodeShutdown (.poller p1),
         stShutdown instID .ok, stWait p1 T .ok, stGetDisk instID diskID (.disk d),
         stWatch instID .ActionDiskResize (.poller p2), stResize instID diskID newSize .ok,
         stWait p2 T .ok, stStatus instID d.ID T (.disk u),
         stWatch instID .ActionLinodeBoot (.poller p3), stBoot instID C .ok,
         stWait p3 T (.err e)])
  | onDone (C : Int) (p1 p2 p3 : EventPoller) (d u : InstanceDisk)
      (hC : C ≠ 0) (hu : u.Size = newSize) :
      Shape instID diskID newSize T (none,
        [stQuery instID (.config C), stWatch instID .ActionLinodeShutdown (.poller p1),
         stShutdown instID .ok, stWait p1 T .ok, stGetDisk instID diskID (.disk d),
         stWatch instID .ActionDiskResize (.poller p2), stResize instID diskID newSize .ok,
         stWait p2 T .ok, stStatus instID d.ID T (.disk u),
         stWatch instID .ActionLinodeBoot (.poller p3), stBoot instID C .ok, stWait p3 T .ok])
  | offDiskReadFailed (e : String) :
      Shape instID diskID newSize T (some ("failed to get instance disk: " ++ e),
        [stQuery instID (.config 0), stGetDisk instID diskID (.err e)])
  | offResizeWatchFailed (d : InstanceDisk) (e : String) :
      Shape instID diskID newSize T (some ("failed to poll for events: " ++ e),
        [stQuery instID (.config 0), stGetDisk instID diskID (.disk d),
         stWatch instID .ActionDiskResize (.err e)])
  | offResizeRejected (p2 : EventPoller) (d : InstanceDisk) (e : String) :
      Shape instID diskID newSize T (some ("failed to resize disk: " ++ e),
        [stQuery instID (.config 0), stGetDisk instID diskID (.disk d),
         stWatch instID .ActionDiskResize (.poller p2), stResize instID diskID newSize (.err e)])
  | offResizeWaitFailed (p2 : EventPoller) (d : InstanceDisk) (e : String) :
      Shape instID diskID newSize T (some ("failed to wait for disk resize: " ++ e),
        [stQuery instID (.config 0), stGetDisk instID diskID (.disk d),
         stWatch instID .ActionDiskResize (.poller p2), stResize instID diskID newSize .ok,
         stWait p2 T (.err e)])
  | offStatusWaitFailed (p2 : EventPoller) (d : InstanceDisk) (e : String) :
      Shape instID diskID newSize T (some ("failed to wait for disk ready: " ++ e),
        [stQuery instID (.config 0), stGetDisk instID diskID (.disk d),
         stWatch instID .ActionDiskResize (.poller p2), stResize instID diskID newSize .ok,
         stWait p2 T .ok, stStatus instID d.ID T (.err e)])
  | offSizeMismatch (p2 : EventPoller) (d u : InstanceDisk) (hu : u.Size ≠ newSize) :
      Shape instID diskID newSize T (some (sizeError d newSize),
        [stQuery instID (.config 0), stGetDisk instID diskID (.disk d),
         stWatch instID .ActionDiskResize (.poller p2), stResize instID diskID newSize .ok,
         stWait p2 T .ok, stStatus instID d.ID T (.disk u)])
  | offDone (p2 : EventPoller) (d u : InstanceDisk) (hu : u.Size = newSize) :
      Shape instID diskID newSize T (none,
        [stQuery instID (.config 0), stGetDisk instID diskID (.disk d),
         stWatch instID .ActionDiskResize (.poller p2), stResize instID diskID newSize .ok,
         stWait p2 T .ok, stStatus instID d.ID T (.disk u)])

/-! ## Reasoning principles for `Exec`

Each lemma rewrites a sequencing step applied to a world into a case
distinction on the collaborator's answer, so that a run unfolds into a tree
whose leaves are explicit traces. -/

namespace Exec

variable {σ α β : Type}

theorem andThen_callV (c : Call) (f : σ → Except String α × σ) (toReply : α → Reply)
    (wrap : String → String) (k : α → Exec σ β) (w : World σ) :
    (callV c f toReply wrap).andThen k w =
      match f w.remote with
      | (.ok v, s) => k v { w with remote := s, trace := w.trace ++ [⟨c, toReply v⟩] }
      | (.error e, s) =>
        (.error (wrap e), { w with remote := s, trace := w.trace ++ [⟨c, .err e⟩] }) := by
  unfold andThen callV
  rcases f w.remote with ⟨_ | _, _⟩ <;> rfl

theorem andThen_callE (c : Call) (f : σ → Option String × σ)
    (wrap : String → String) (k : Unit → Exec σ β) (w : World σ) :
    (callE c f wrap).andThen k w =
      match f w.remote with
      | (none, s) => k () { w with remote := s, trace := w.trace ++ [⟨c, .ok⟩] }
      | (some e, s) =>
        (.error (wrap e), { w with remote := s, trace := w.trace ++ [⟨c, .err e⟩] }) := by
  unfold andThen callE
  rcases f w.remote with ⟨_ | _, _⟩ <;> rfl

theorem andThen_tflog (level msg : String) (fields : List (String × Int))
    (k : Unit → Exec σ β) (w : World σ) :
    (tflog level msg fields).andThen k w =
      k () { w with logs := w.logs ++ [⟨level, msg, fields⟩] } := rfl

theorem andThen_ret (a : α) (k : α → Exec σ β) (w : World σ) :
    (ret a).andThen k w = k a w := rfl

theorem andThen_fail (e : String) (k : α → Exec σ β) (w : World σ) :
    (fail e : Exec σ α).andThen k w = (.error e, w) := rfl

theorem ret_run (a : α) (w : World σ) : ret a w = (.ok a, w) := rfl

theorem ite_run (c : Prop) [Decidable c] (a b : Exec σ α) (w : World σ) :
    (if c then a else b) w = if c then a w else b w := by
  split <;> rfl

theorem andThen_ite (c : Prop) [Decidable c] (a b : Exec σ α) (k : α → Exec σ β)
    (w : World σ) :
    (if c then a else b).andThen k w = if c then a.andThen k w else b.andThen k w := by
  split <;> rfl

theorem andThen_assoc {γ : Type} (m : Exec σ α) (f : α → Exec σ β) (k : β → Exec σ γ)
    (w : World σ) :
    (m.andThen f).andThen k w = m.andThen (fun a => (f a).andThen k) w := by
  unfold andThen
  rcases m w with ⟨_ | _, _⟩ <;> rfl

end Exec

/-! ## Every run has one of the listed outcomes -/

set_option maxHeartbeats 4000000 in
theorem run_shape {σ : Type} (client : Client σ) (instID diskID newSize T : Int) (s : σ) :
    Shape instID diskID newSize T (run client instID diskID newSize T s) := by
  generalize hr : run client instID diskID newSize T s = r
  unfold run handleDiskResize at hr
  simp only [bind, pure, Exec.ite_run, Exec.andThen_ite, Exec.andThen_assoc, Exec.andThen_callV,
    Exec.andThen_callE, Exec.andThen_tflog, Exec.andThen_ret, Exec.andThen_fail, Exec.ret_run,
    List.nil_append, List.cons_append, bne_iff_ne, ne_eq, ite_not] at hr
  repeat' split at hr
  all_goals
    subst hr
    simp only [errorOf]
    first
    | (constructor <;> assumption)
    | (subst_vars; constructor <;> first | assumption | rfl)

theorem forall_getElem?_cons {α : Type} (P : Nat → α → Prop) (a : α) (l : List α) :
    (∀ i x, (a :: l)[i]? = some x → P i x) ↔ (P 0 a ∧ ∀ i x, l[i]? = some x → P (i + 1) x) := by
  constructor
  · intro h
    exact ⟨h 0 a (by simp), fun i x hx => h (i + 1) x (by simpa using hx)⟩
  · rintro ⟨h0, hs⟩ i x hx
    cases i with
    | zero =>
      simp at hx
      subst hx
      exact h0
    | succ n => exact hs n x (by simpa using hx)

theorem forall_getElem?_nil {α : Type} (P : Nat → α → Prop) :
    (∀ i x, ([] : List α)[i]? = some x → P i x) ↔ True := by
  simp

theorem callV_withDiskSize {σ : Type} (client : Client σ) (size : Int) (c : Call)
    (i d : Int) (wrap : String → String) :
    Exec.callV c ((client.withDiskSize size).GetInstanceDisk i d) Reply.disk wrap =
      (Exec.callV c (client.GetInstanceDisk i d)
        (fun v => Reply.disk { v with Size := size }) wrap).andThen
        (fun v => Exec.ret { v with Size := size }) := by
  funext w
  unfold Exec.andThen Exec.callV Client.withDiskSize Exec.ret
  simp only
  rcases client.GetInstanceDisk i d w.remote with ⟨_ | _, _⟩ <;> rfl

theorem withDiskSize_others {σ : Type} (client : Client σ) (size : Int) :
    (client.withDiskSize size).GetCurrentBootedConfig = client.GetCurrentBootedConfig ∧
    (client.withDiskSize size).NewEventPoller = client.NewEventPoller ∧
    (client.withDiskSize size).ShutdownInstance = client.ShutdownInstance ∧
    (client.withDiskSize size).WaitForFinished = client.WaitForFinished ∧
    (client.withDiskSize size).ResizeInstanceDisk = client.ResizeInstanceDisk ∧
    (client.withDiskSize size).WaitForInstanceDiskStatus = client.WaitForInstanceDiskStatus ∧
    (client.withDiskSize size).BootInstance = client.BootInstance :=
  ⟨rfl, rfl, rfl, rfl, rfl, rfl, rfl⟩

/-! ## The claims -/

/-- Claim C1.  If the initial booted-configuration query answers 0 (no booted
configuration), then whatever the collaborators answer afterwards, no call of
the run is a `ShutdownInstance`, a `BootInstance`, or an event-watch
registration for the shutdown or the boot action. -/
theorem no_shutdown_or_boot_when_powered_off {σ : Type} (client : Client σ)
    (instID diskID newSize T : Int) (s : σ)
    (h : (client.GetCurrentBootedConfig instID s).1 = .ok 0) :
    ∀ st ∈ (run client instID diskID newSize T s).2,
      (∀ id, st.call ≠ .ShutdownInstance id) ∧ (∀ id c, st.call ≠ .BootInstance id c) ∧
      (∀ id e, st.call ≠ .NewEventPoller id e .ActionLinodeShutdown) ∧
      (∀ id e, st.call ≠ .NewEventPoller id e .ActionLinodeBoot) := by
  unfold run handleDiskResize
  simp only [bind, pure, Exec.ite_run, Exec.andThen_ite, Exec.andThen_assoc, Exec.andThen_callV,
    Exec.andThen_callE, Exec.andThen_tflog, Exec.andThen_ret, Exec.andThen_fail, Exec.ret_run]
  repeat' split
  all_goals simp_all

/-- Claim C1 at a powered-off instance whose resize succeeds. -/
theorem no_shutdown_or_boot_when_powered_off_witness :
    ((scripted 0 (disk100 2000) (disk100 4000) none).GetCurrentBootedConfig 1 0).1 = .ok 0 ∧
    ∀ st ∈ (run (scripted 0 (disk100 2000) (disk100 4000) none) 1 100 4000 60 0).2,
      (∀ id, st.call ≠ .ShutdownInstance id) ∧ (∀ id c, st.call ≠ .BootInstance id c) ∧
      (∀ id e, st.call ≠ .NewEventPoller id e .ActionLinodeShutdown) ∧
      (∀ id e, st.call ≠ .NewEventPoller id e .ActionLinodeBoot) :=
  ⟨rfl, no_shutdown_or_boot_when_powered_off _ 1 100 4000 60 0 rfl⟩

/-- Claim C2.  If the initial query answers a configuration `C` other than 0
and the run returns nil, then `BootInstance` was called exactly once, on the
given instance with configuration `C`, and the booted configuration was
queried exactly once, as the first call of the run, before `ShutdownInstance`. -/
theorem boot_restores_initial_config {σ : Type} (client : Client σ)
    (instID diskID newSize T : Int) (s : σ) (C : Int)
    (hq : (client.GetCurrentBootedConfig instID s).1 = .ok C) (hC : C ≠ 0)
    (hs : (run client instID diskID newSize T s).1 = none) :
    (((run client instID diskID newSize T s).2.map Step.call).filter Call.isBoot
        = [.BootInstance instID C]) ∧
    (((run client instID diskID newSize T s).2.map Step.call).filter Call.isConfigQuery
        = [.GetCurrentBootedConfig instID]) ∧
    ∃ rest, (run client instID diskID newSize T s).2.map Step.call
        = .GetCurrentBootedConfig instID :: rest ∧ .ShutdownInstance instID ∈ rest := by
  revert hs
  unfold run handleDiskResize
  simp only [bind, pure, Exec.ite_run, Exec.andThen_ite, Exec.andThen_assoc, Exec.andThen_callV,
    Exec.andThen_callE, Exec.andThen_tflog, Exec.andThen_ret, Exec.andThen_fail, Exec.ret_run]
  repeat' split
  all_goals simp_all [errorOf, Call.isBoot, Call.isConfigQuery]

/-- Claim C2 at the end-to-end scenario: configuration 7, disk 100 resized from
2000 to 4000. -/
theorem boot_restores_initial_config_witness :
    ((scripted 7 (disk100 2000) (disk100 4000) none).GetCurrentBootedConfig 1 0).1 = .ok 7 ∧
    (7 : Int) ≠ 0 ∧
    (run (scripted 7 (disk100 2000) (disk100 4000) none) 1 100 4000 60 0).1 = none ∧
    (((run (scripted 7 (disk100 2000) (disk100 4000) none) 1 100 4000 60 0).2.map
        Step.call).filter Call.isBoot = [.BootInstance 1 7]) ∧
    (((run (scripted 7 (disk100 2000) (disk100 4000) none) 1 100 4000 60 0).2.map
        Step.call).filter Call.isConfigQuery = [.GetCurrentBootedConfig 1]) ∧
    ∃ rest, (run (scripted 7 (disk100 2000) (disk100 4000) none) 1 100 4000 60 0).2.map
        Step.call = .GetCurrentBootedConfig 1 :: rest ∧ .ShutdownInstance 1 ∈ rest :=
  ⟨rfl, by decide, rfl,
    boot_restores_initial_config _ 1 100 4000 60 0 7 rfl (by decide) rfl⟩

/-- Claim C3.  If the status wait answers a disk whose size differs from
`newSize`, the run returns an error and never calls `BootInstance`; and a run
that returns nil has made a status wait, on the given instance for the ready
status with the given timeout, that answered a disk of size exactly `newSize`. -/
theorem size_mismatch_is_an_error {σ : Type} (client : Client σ)
    (instID diskID newSize T : Int) (s : σ) :
    (∀ a b c t u, ⟨.WaitForInstanceDiskStatus a b c t, .disk u⟩
          ∈ (run client instID diskID newSize T s).2 → u.Size ≠ newSize →
        (∃ msg, (run client instID diskID newSize T s).1 = some msg) ∧
        ∀ st ∈ (run client instID diskID newSize T s).2, ∀ i c, st.call ≠ .BootInstance i c) ∧
    ((run client instID diskID newSize T s).1 = none →
      (∃ d u, ⟨.WaitForInstanceDiskStatus instID d .DiskReady T, .disk u⟩
          ∈ (run client instID diskID newSize T s).2) ∧
      ∀ a b c t u, ⟨.WaitForInstanceDiskStatus a b c t, .disk u⟩
          ∈ (run client instID diskID newSize T s).2 → u.Size = newSize) := by
  have h := run_shape client instID diskID newSize T s
  generalize run client instID diskID newSize T s = r at h ⊢
  cases h <;> simp_all

/-- Claim C3 at the failure scenario (the status wait answers size 3500 for a
requested 4000) and at the success scenario. -/
theorem size_mismatch_is_an_error_witness :
    (⟨.WaitForInstanceDiskStatus 1 100 .DiskReady 60, .disk (disk100 3500)⟩
        ∈ (run (scripted 7 (disk100 2000) (disk100 3500) none) 1 100 4000 60 0).2 ∧
      (disk100 3500).Size ≠ 4000 ∧
      (∃ msg, (run (scripted 7 (disk100 2000) (disk100 3500) none) 1 100 4000 60 0).1
        = some msg) ∧
      ∀ st ∈ (run (scripted 7 (disk100 2000) (disk100 3500) none) 1 100 4000 60 0).2,
        ∀ i c, st.call ≠ .BootInstance i c) ∧
    ((run (scripted 7 (disk100 2000) (disk100 4000) none) 1 100 4000 60 0).1 = none ∧
      ∀ a b c t u, ⟨.WaitForInstanceDiskStatus a b c t, .disk u⟩
          ∈ (run (scripted 7 (disk100 2000) (disk100 4000) none) 1 100 4000 60 0).2 →
        u.Size = 4000) :=
  ⟨⟨by decide, by decide,
      (size_mismatch_is_an_error (scripted 7 (disk100 2000) (disk100 3500) none)
        1 100 4000 60 0).1 1 100 .DiskReady 60 (disk100 3500) (by decide) (by decide)⟩,
    rfl,
    ((size_mismatch_is_an_error (scripted 7 (disk100 2000) (disk100 4000) none)
        1 100 4000 60 0).2 rfl).2⟩

/-- Claim C4, refuted as stated.  In the failure scenario (disk 100 read with
size 2000, 4000 requested, the status wait answering 3500) the message is
"failed to resize disk 100 from 2000 to 4000": it does not contain the actual
size 3500, and it is the same message when the actual size is 3999. -/
theorem size_error_omits_actual_size :
    (run (scripted 7 (disk100 2000) (disk100 3500) none) 1 100 4000 60 0).1
      = some "failed to resize disk 100 from 2000 to 4000" ∧
    ¬ ("3500".toList <:+: "failed to resize disk 100 from 2000 to 4000".toList) ∧
    (run (scripted 7 (disk100 2000) (disk100 3999) none) 1 100 4000 60 0).1
      = some "failed to resize disk 100 from 2000 to 4000" := by
  decide

/-- Claim C4, amended.  When the size check fails, the error message names
the identifier of the disk record read before the resize, the size that record
had before the resize, and `newSize`; the size observed after the resize does
not appear in it. -/
theorem size_error_message {σ : Type} (client : Client σ)
    (instID diskID newSize T : Int) (s : σ) (d u : InstanceDisk)
    (hd : ⟨.GetInstanceDisk instID diskID, .disk d⟩ ∈ (run client instID diskID newSize T s).2)
    (hu : ⟨.WaitForInstanceDiskStatus instID d.ID .DiskReady T, .disk u⟩
      ∈ (run client instID diskID newSize T s).2)
    (hne : u.Size ≠ newSize) :
    (run client instID diskID newSize T s).1
      = some ("failed to resize disk " ++ fmtD d.ID ++ " from " ++ fmtD d.Size ++ " to "
          ++ fmtD newSize) := by
  have h := run_shape client instID diskID newSize T s
  generalize run client instID diskID newSize T s = r at h hd hu ⊢
  cases h <;> simp_all

/-- Claim C4, amended, at the failure scenario. -/
theorem size_error_message_witness :
    ⟨.GetInstanceDisk 1 100, .disk (disk100 2000)⟩
        ∈ (run (scripted 7 (disk100 2000) (disk100 3500) none) 1 100 4000 60 0).2 ∧
    ⟨.WaitForInstanceDiskStatus 1 (disk100 2000).ID .DiskReady 60, .disk (disk100 3500)⟩
        ∈ (run (scripted 7 (disk100 2000) (disk100 3500) none) 1 100 4000 60 0).2 ∧
    (disk100 3500).Size ≠ 4000 ∧
    (run (scripted 7 (disk100 2000) (disk100 3500) none) 1 100 4000 60 0).1
      = some ("failed to resize disk " ++ fmtD (disk100 2000).ID ++ " from "
          ++ fmtD (disk100 2000).Size ++ " to " ++ fmtD 4000) :=
  ⟨by decide, by decide, by decide,
    size_error_message (scripted 7 (disk100 2000) (disk100 3500) none) 1 100 4000 60 0
      (disk100 2000) (disk100 3500) (by decide) (by decide) (by decide)⟩

/-- Claim C5, refuted as stated.  On a booted instance (configuration 7) whose
disk read fails, the run returns an error after `ShutdownInstance` has been
called and has succeeded. -/
theorem disk_read_failure_follows_shutdown :
    run (scripted 7 (disk100 2000) (disk100 4000) (some 4)) 1 100 4000 60 0
      = (some "failed to get instance disk: boom",
         [⟨.GetCurrentBootedConfig 1, .config 7⟩,
          ⟨.NewEventPoller 1 .EntityLinode .ActionLinodeShutdown, .poller ⟨1⟩⟩,
          ⟨.ShutdownInstance 1, .ok⟩,
          ⟨.WaitForFinished ⟨1⟩ 60, .ok⟩,
          ⟨.GetInstanceDisk 1 100, .err "boom"⟩]) ∧
    ⟨.ShutdownInstance 1, .ok⟩
      ∈ (run (scripted 7 (disk100 2000) (disk100 4000) (some 4)) 1 100 4000 60 0).2 := by
  decide

/-- Claim C5, amended.  A failing booted-configuration query ends the run with
that error and no other call.  A failing disk read ends the run with an error
and no `ResizeInstanceDisk` or `BootInstance` call; no `ShutdownInstance`
either when the query answered 0, the run then being the query followed by
the disk read.  On a booted instance the shutdown has already been requested
and awaited before the disk is read: the run is exactly the query, the
shutdown watch registration, the accepted `ShutdownInstance`, the successful
wait on that watch, and then the failing disk read. -/
theorem lookup_failure_stops_before_resize {σ : Type} (client : Client σ)
    (instID diskID newSize T : Int) (s : σ) :
    (∀ e, ⟨.GetCurrentBootedConfig instID, .err e⟩ ∈ (run client instID diskID newSize T s).2 →
      run client instID diskID newSize T s
        = (some e, [⟨.GetCurrentBootedConfig instID, .err e⟩])) ∧
    (∀ e, ⟨.GetInstanceDisk instID diskID, .err e⟩ ∈ (run client instID diskID newSize T s).2 →
      (run client instID diskID newSize T s).1 = some ("failed to get instance disk: " ++ e) ∧
      (∀ st ∈ (run client instID diskID newSize T s).2,
        (∀ a b c, st.call ≠ .ResizeInstanceDisk a b c) ∧ (∀ a c, st.call ≠ .BootInstance a c)) ∧
      (⟨.GetCurrentBootedConfig instID, .config 0⟩ ∈ (run client instID diskID newSize T s).2 →
        (∀ st ∈ (run client instID diskID newSize T s).2, ∀ a, st.call ≠ .ShutdownInstance a) ∧
        (run client instID diskID newSize T s).2
          = [⟨.GetCurrentBootedConfig instID, .config 0⟩,
             ⟨.GetInstanceDisk instID diskID, .err e⟩]) ∧
      (∀ C, C ≠ 0 →
        ⟨.GetCurrentBootedConfig instID, .config C⟩ ∈ (run client instID diskID newSize T s).2 →
        ⟨.ShutdownInstance instID, .ok⟩ ∈ (run client instID diskID newSize T s).2 ∧
        ∃ p1, (run client instID diskID newSize T s).2
          = [⟨.GetCurrentBootedConfig instID, .config C⟩,
             ⟨.NewEventPoller instID .EntityLinode .ActionLinodeShutdown, .poller p1⟩,
             ⟨.ShutdownInstance instID, .ok⟩,
             ⟨.WaitForFinished p1 T, .ok⟩,
             ⟨.GetInstanceDisk instID diskID, .err e⟩])) := by
  have h := run_shape client instID diskID newSize T s
  generalize run client instID diskID newSize T s = r at h ⊢
  cases h <;> simp_all
  omega

/-- Claim C5, amended, at a failing query, at a failing disk read on a
powered-off instance, and at a failing disk read on a booted instance. -/
theorem lookup_failure_stops_before_resize_witness :
    (⟨.GetCurrentBootedConfig 1, .err "boom"⟩
        ∈ (run (scripted 7 (disk100 2000) (disk100 4000) (some 0)) 1 100 4000 60 0).2 ∧
      run (scripted 7 (disk100 2000) (disk100 4000) (some 0)) 1 100 4000 60 0
        = (some "boom", [⟨.GetCurrentBootedConfig 1, .err "boom"⟩])) ∧
    (⟨.GetInstanceDisk 1 100, .err "boom"⟩
        ∈ (run (scripted 0 (disk100 2000) (disk100 4000) (some 1)) 1 100 4000 60 0).2 ∧
      ⟨.GetCurrentBootedConfig 1, .config 0⟩
        ∈ (run (scripted 0 (disk100 2000) (disk100 4000) (some 1)) 1 100 4000 60 0).2 ∧
      ∀ st ∈ (run (scripted 0 (disk100 2000) (disk100 4000) (some 1)) 1 100 4000 60 0).2,
        ∀ a, st.call ≠ .ShutdownInstance a) ∧
    (⟨.GetInstanceDisk 1 100, .err "boom"⟩
        ∈ (run (scripted 7 (disk100 2000) (disk100 4000) (some 4)) 1 100 4000 60 0).2 ∧
      (7 : Int) ≠ 0 ∧
      ⟨.GetCurrentBootedConfig 1, .config 7⟩
        ∈ (run (scripted 7 (disk100 2000) (disk100 4000) (some 4)) 1 100 4000 60 0).2 ∧
      ∃ p1, (run (scripted 7 (disk100 2000) (disk100 4000) (some 4)) 1 100 4000 60 0).2
        = [⟨.GetCurrentBootedConfig 1, .config 7⟩,
           ⟨.NewEventPoller 1 .EntityLinode .ActionLinodeShutdown, .poller p1⟩,
           ⟨.ShutdownInstance 1, .ok⟩,
           ⟨.WaitForFinished p1 60, .ok⟩,
           ⟨.GetInstanceDisk 1 100, .err "boom"⟩]) :=
  ⟨⟨by decide,
      (lookup_failure_stops_before_resize (scripted 7 (disk100 2000) (disk100 4000) (some 0))
        1 100 4000 60 0).1 "boom" (by decide)⟩,
    ⟨by decide, by decide,
      (((lookup_failure_stops_before_resize (scripted 0 (disk100 2000) (disk100 4000) (some 1))
        1 100 4000 60 0).2 "boom" (by decide)).2.2.1 (by decide)).1⟩,
    by decide, by decide, by decide,
    (((lookup_failure_stops_before_resize (scripted 7 (disk100 2000) (disk100 4000) (some 4))
        1 100 4000 60 0).2 "boom" (by decide)).2.2.2 7 (by decide) (by decide)).2⟩

set_option maxHeartbeats 4000000 in
/-- Claim C6.  Watch before trigger: every triggering request of a run
(`ShutdownInstance`, `ResizeInstanceDisk`, `BootInstance`) addresses the given
instance and comes immediately after a successful event-watch registration on
that instance for the matching action (shutdown, disk resize, boot), so no
other request lies between the two; if the request is accepted, the next call
is the completion wait on the watch that registration returned, with the given
timeout, and if it is rejected no call follows. -/
theorem watch_before_trigger {σ : Type} (client : Client σ)
    (instID diskID newSize T : Int) (s : σ) :
    ∀ (i : Nat) (st : Step), (run client instID diskID newSize T s).2[i]? = some st →
      ∀ (id : Int) (act : EventAction), st.call.trigger = some (id, act) →
      id = instID ∧ ∃ j p, i = j + 1 ∧
        (run client instID diskID newSize T s).2[j]?
          = some ⟨.NewEventPoller instID .EntityLinode act, .poller p⟩ ∧
        ((st.reply = .ok ∧
            ∃ r, (run client instID diskID newSize T s).2[i + 1]?
              = some ⟨.WaitForFinished p T, r⟩) ∨
         ((∃ e, st.reply = .err e) ∧
            (run client instID diskID newSize T s).2[i + 1]? = none)) := by
  have h := run_shape client instID diskID newSize T s
  generalize run client instID diskID newSize T s = r at h ⊢
  cases h <;> simp only [forall_getElem?_cons, forall_getElem?_nil] <;> simp [Call.trigger]

/-- Claim C6 at the resize request of the end-to-end scenario (call number 6,
after the watch registered by call number 5). -/
theorem watch_before_trigger_witness :
    (run (scripted 7 (disk100 2000) (disk100 4000) none) 1 100 4000 60 0).2[6]?
      = some ⟨.ResizeInstanceDisk 1 100 4000, .ok⟩ ∧
    (Call.ResizeInstanceDisk 1 100 4000).trigger = some (1, .ActionDiskResize) ∧
    ((1 : Int) = 1 ∧ ∃ j p, 6 = j + 1 ∧
      (run (scripted 7 (disk100 2000) (disk100 4000) none) 1 100 4000 60 0).2[j]?
        = some ⟨.NewEventPoller 1 .EntityLinode .ActionDiskResize, .poller p⟩ ∧
      (((⟨.ResizeInstanceDisk 1 100 4000, .ok⟩ : Step).reply = .ok ∧
          ∃ r, (run (scripted 7 (disk100 2000) (disk100 4000) none) 1 100 4000 60 0).2[6 + 1]?
            = some ⟨.WaitForFinished p 60, r⟩) ∨
       ((∃ e, (⟨.ResizeInstanceDisk 1 100 4000, .ok⟩ : Step).reply = .err e) ∧
          (run (scripted 7 (disk100 2000) (disk100 4000) none) 1 100 4000 60 0).2[6 + 1]?
            = none))) :=
  ⟨by decide, rfl,
    watch_before_trigger (scripted 7 (disk100 2000) (disk100 4000) none) 1 100 4000 60 0
      6 ⟨.ResizeInstanceDisk 1 100 4000, .ok⟩ (by decide) 1 .ActionDiskResize rfl⟩

/-- Claim C7.  Fail-fast: a call that fails is the last call of the run (every
call but the last succeeded, so nothing follows a failure and nothing is
retried), and the run then returns an error.  In particular, when the
completion wait that follows the resize request fails, the run contains no
`WaitForInstanceDiskStatus` and no `BootInstance` call; and when
`ShutdownInstance` is rejected, the run contains no `ResizeInstanceDisk`
call. -/
theorem fail_fast {σ : Type} (client : Client σ) (instID diskID newSize T : Int) (s : σ) :
    (∀ st ∈ (run client instID diskID newSize T s).2.dropLast, ∀ e, st.reply ≠ .err e) ∧
    (∀ st, (run client instID diskID newSize T s).2.getLast? = some st →
      ∀ e, st.reply = .err e → ∃ msg, (run client instID diskID newSize T s).1 = some msg) ∧
    (∀ p t e, (run client instID diskID newSize T s).2.getLast?
        = some ⟨.WaitForFinished p t, .err e⟩ →
      ∀ a b c r, (run client instID diskID newSize T s).2.dropLast.getLast?
        = some ⟨.ResizeInstanceDisk a b c, r⟩ →
      ∀ st ∈ (run client instID diskID newSize T s).2,
        (∀ i d c t, st.call ≠ .WaitForInstanceDiskStatus i d c t) ∧
        (∀ i c, st.call ≠ .BootInstance i c)) ∧
    (∀ i e, ⟨.ShutdownInstance i, .err e⟩ ∈ (run client instID diskID newSize T s).2 →
      ∀ st ∈ (run client instID diskID newSize T s).2,
        ∀ a b c, st.call ≠ .ResizeInstanceDisk a b c) := by
  have h := run_shape client instID diskID newSize T s
  generalize run client instID diskID newSize T s = r at h ⊢
  cases h <;> simp_all

/-- Claim C7 at a run whose resize-completion wait fails (call number 7) and
at a run whose shutdown request is rejected (call number 2). -/
theorem fail_fast_witness :
    ((run (scripted 7 (disk100 2000) (disk100 4000) (some 7)) 1 100 4000 60 0).2.getLast?
        = some ⟨.WaitForFinished ⟨5⟩ 60, .err "boom"⟩ ∧
      (run (scripted 7 (disk100 2000) (disk100 4000) (some 7)) 1 100 4000 60 0).2.dropLast.getLast?
        = some ⟨.ResizeInstanceDisk 1 100 4000, .ok⟩ ∧
      ∀ st ∈ (run (scripted 7 (disk100 2000) (disk100 4000) (some 7)) 1 100 4000 60 0).2,
        (∀ i d c t, st.call ≠ .WaitForInstanceDiskStatus i d c t) ∧
        (∀ i c, st.call ≠ .BootInstance i c)) ∧
    (⟨.ShutdownInstance 1, .err "boom"⟩
        ∈ (run (scripted 7 (disk100 2000) (disk100 4000) (some 2)) 1 100 4000 60 0).2 ∧
      ∀ st ∈ (run (scripted 7 (disk100 2000) (disk100 4000) (some 2)) 1 100 4000 60 0).2,
        ∀ a b c, st.call ≠ .ResizeInstanceDisk a b c) :=
  ⟨⟨by decide, by decide,
      (fail_fast (scripted 7 (disk100 2000) (disk100 4000) (some 7)) 1 100 4000 60 0).2.2.1
        ⟨5⟩ 60 "boom" (by decide) 1 100 4000 .ok (by decide)⟩,
    by decide,
    (fail_fast (scripted 7 (disk100 2000) (disk100 4000) (some 2)) 1 100 4000 60 0).2.2.2
      1 "boom" (by decide)⟩

/-- A booted run in which no call fails and the status wait answers the
requested size is the full twelve-call sequence; the status wait is made on
the identifier carried by the disk record that `GetInstanceDisk` answered. -/
theorem booted_success_trace {σ : Type} (client : Client σ)
    (instID diskID newSize T : Int) (s : σ) (C : Int)
    (hq : ⟨.GetCurrentBootedConfig instID, .config C⟩ ∈ (run client instID diskID newSize T s).2)
    (hC : C ≠ 0)
    (hok : ∀ st ∈ (run client instID diskID newSize T s).2, ∀ e, st.reply ≠ .err e)
    (hsz : ∀ a b c t u, ⟨.WaitForInstanceDiskStatus a b c t, .disk u⟩
      ∈ (run client instID diskID newSize T s).2 → u.Size = newSize) :
    ∃ p1 p2 p3 d u, u.Size = newSize ∧
      run client instID diskID newSize T s
        = (none,
           [⟨.GetCurrentBootedConfig instID, .config C⟩,
            ⟨.NewEventPoller instID .EntityLinode .ActionLinodeShutdown, .poller p1⟩,
            ⟨.ShutdownInstance instID, .ok⟩,
            ⟨.WaitForFinished p1 T, .ok⟩,
            ⟨.GetInstanceDisk instID diskID, .disk d⟩,
            ⟨.NewEventPoller instID .EntityLinode .ActionDiskResize, .poller p2⟩,
            ⟨.ResizeInstanceDisk instID diskID newSize, .ok⟩,
            ⟨.WaitForFinished p2 T, .ok⟩,
            ⟨.WaitForInstanceDiskStatus instID d.ID .DiskReady T, .disk u⟩,
            ⟨.NewEventPoller instID .EntityLinode .ActionLinodeBoot, .poller p3⟩,
            ⟨.BootInstance instID C, .ok⟩,
            ⟨.WaitForFinished p3 T, .ok⟩]) := by
  have h := run_shape client instID diskID newSize T s
  generalize run client instID diskID newSize T s = r at h hq hok hsz ⊢
  cases h <;> simp_all <;>
    first
    | exact hsz _ _ _ _ _ rfl rfl rfl rfl rfl
    | exact ⟨_, _, _, _, _, by assumption, rfl, rfl, rfl, ⟨rfl, rfl⟩, rfl⟩

/-- Claim C8.  Full success path.  If the query answered a configuration `C`
other than 0, no call of the run failed, the disk record answered by
`GetInstanceDisk` carries the identifier it was asked for, and the status wait
answered a disk of size `newSize`, then the run returns nil and consists of
exactly these twelve calls: the query; the shutdown watch, `ShutdownInstance`,
the wait on that watch; `GetInstanceDisk` on the given disk; the disk-resize
watch, `ResizeInstanceDisk` on the given disk with `newSize`, the wait on that
watch; `WaitForInstanceDiskStatus` on the given disk for the ready status; the
boot watch, `BootInstance` with `C`, the wait on that watch.  Every wait
receives the timeout `T` unchanged. -/
theorem full_success_path {σ : Type} (client : Client σ)
    (instID diskID newSize T : Int) (s : σ) (C : Int)
    (hq : ⟨.GetCurrentBootedConfig instID, .config C⟩ ∈ (run client instID diskID newSize T s).2)
    (hC : C ≠ 0)
    (hok : ∀ st ∈ (run client instID diskID newSize T s).2, ∀ e, st.reply ≠ .err e)
    (hid : ∀ d, ⟨.GetInstanceDisk instID diskID, .disk d⟩
      ∈ (run client instID diskID newSize T s).2 → d.ID = diskID)
    (hsz : ∀ a b c t u, ⟨.WaitForInstanceDiskStatus a b c t, .disk u⟩
      ∈ (run client instID diskID newSize T s).2 → u.Size = newSize) :
    ∃ p1 p2 p3 d u, d.ID = diskID ∧ u.Size = newSize ∧
      run client instID diskID newSize T s
        = (none,
           [⟨.GetCurrentBootedConfig instID, .config C⟩,
            ⟨.NewEventPoller instID .EntityLinode .ActionLinodeShutdown, .poller p1⟩,
            ⟨.ShutdownInstance instID, .ok⟩,
            ⟨.WaitForFinished p1 T, .ok⟩,
            ⟨.GetInstanceDisk instID diskID, .disk d⟩,
            ⟨.NewEventPoller instID .EntityLinode .ActionDiskResize, .poller p2⟩,
            ⟨.ResizeInstanceDisk instID diskID newSize, .ok⟩,
            ⟨.WaitForFinished p2 T, .ok⟩,
            ⟨.WaitForInstanceDiskStatus instID diskID .DiskReady T, .disk u⟩,
            ⟨.NewEventPoller instID .EntityLinode .ActionLinodeBoot, .poller p3⟩,
            ⟨.BootInstance instID C, .ok⟩,
            ⟨.WaitForFinished p3 T, .ok⟩]) := by
  obtain ⟨p1, p2, p3, d, u, hu, hrun⟩ :=
    booted_success_trace client instID diskID newSize T s C hq hC hok hsz
  have hd : d.ID = diskID := hid d (by rw [hrun]; simp)
  refine ⟨p1, p2, p3, d, u, hd, hu, ?_⟩
  rw [hrun, hd]

/-- Claim C8 at the end-to-end scenario: configuration 7, disk 100 of size
2000, new size 4000, timeout 60. -/
theorem full_success_path_witness :
    ⟨.GetCurrentBootedConfig 1, .config 7⟩
        ∈ (run (scripted 7 (disk100 2000) (disk100 4000) none) 1 100 4000 60 0).2 ∧
    (7 : Int) ≠ 0 ∧
    ∃ p1 p2 p3 d u, d.ID = 100 ∧ u.Size = 4000 ∧
      run (scripted 7 (disk100 2000) (disk100 4000) none) 1 100 4000 60 0
        = (none,
           [⟨.GetCurrentBootedConfig 1, .config 7⟩,
            ⟨.NewEventPoller 1 .EntityLinode .ActionLinodeShutdown, .poller p1⟩,
            ⟨.ShutdownInstance 1, .ok⟩,
            ⟨.WaitForFinished p1 60, .ok⟩,
            ⟨.GetInstanceDisk 1 100, .disk d⟩,
            ⟨.NewEventPoller 1 .EntityLinode .ActionDiskResize, .poller p2⟩,
            ⟨.ResizeInstanceDisk 1 100 4000, .ok⟩,
            ⟨.WaitForFinished p2 60, .ok⟩,
            ⟨.WaitForInstanceDiskStatus 1 100 .DiskReady 60, .disk u⟩,
            ⟨.NewEventPoller 1 .EntityLinode .ActionLinodeBoot, .poller p3⟩,
            ⟨.BootInstance 1 7, .ok⟩,
            ⟨.WaitForFinished p3 60, .ok⟩]) :=
  have htrace : (run (scripted 7 (disk100 2000) (disk100 4000) none) 1 100 4000 60 0).2
      = [(⟨.GetCurrentBootedConfig 1, .config 7⟩ : Step),
          ⟨.NewEventPoller 1 .EntityLinode .ActionLinodeShutdown, .poller ⟨1⟩⟩,
          ⟨.ShutdownInstance 1, .ok⟩,
          ⟨.WaitForFinished ⟨1⟩ 60, .ok⟩,
          ⟨.GetInstanceDisk 1 100, .disk (disk100 2000)⟩,
          ⟨.NewEventPoller 1 .EntityLinode .ActionDiskResize, .poller ⟨5⟩⟩,
          ⟨.ResizeInstanceDisk 1 100 4000, .ok⟩,
          ⟨.WaitForFinished ⟨5⟩ 60, .ok⟩,
          ⟨.WaitForInstanceDiskStatus 1 100 .DiskReady 60, .disk (disk100 4000)⟩,
          ⟨.NewEventPoller 1 .EntityLinode .ActionLinodeBoot, .poller ⟨9⟩⟩,
          ⟨.BootInstance 1 7, .ok⟩,
          ⟨.WaitForFinished ⟨9⟩ 60, .ok⟩] := by decide
  ⟨by decide, by decide,
    full_success_path (scripted 7 (disk100 2000) (disk100 4000) none) 1 100 4000 60 0 7
      (by decide) (by decide)
      (by
        intro st hst e he
        rw [htrace] at hst
        simp at hst
        rcases hst with h | h | h | h | h | h | h | h | h | h | h | h <;>
          (subst h; simp at he))
      (by
        intro d hd
        rw [htrace] at hd
        simp at hd
        rw [hd]
        rfl)
      (by
        intro a b c t u hu
        rw [htrace] at hu
        simp at hu
        rw [hu.2]
        rfl)⟩

/-- Claim C9, refuted as stated.  A failing booted-configuration query is
returned unwrapped ("boom" stays "boom"), and a watch registration failing
with "boom" gives the same message in the shutdown phase (call number 1), in
the resize phase (call number 5) and in the boot phase (call number 9). -/
theorem error_context_does_not_tell_phases_apart :
    (run (scripted 7 (disk100 2000) (disk100 4000) (some 0)) 1 100 4000 60 0).1
      = some "boom" ∧
    (run (scripted 7 (disk100 2000) (disk100 4000) (some 1)) 1 100 4000 60 0).1
      = some "failed to poll for events: boom" ∧
    (run (scripted 7 (disk100 2000) (disk100 4000) (some 5)) 1 100 4000 60 0).1
      = some "failed to poll for events: boom" ∧
    (run (scripted 7 (disk100 2000) (disk100 4000) (some 9)) 1 100 4000 60 0).1
      = some "failed to poll for events: boom" ∧
    (run (scripted 7 (disk100 2000) (disk100 4000) (some 1)) 1 100 4000 60 0).2.getLast?
      = some ⟨.NewEventPoller 1 .EntityLinode .ActionLinodeShutdown, .err "boom"⟩ ∧
    (run (scripted 7 (disk100 2000) (disk100 4000) (some 5)) 1 100 4000 60 0).2.getLast?
      = some ⟨.NewEventPoller 1 .EntityLinode .ActionDiskResize, .err "boom"⟩ ∧
    (run (scripted 7 (disk100 2000) (disk100 4000) (some 9)) 1 100 4000 60 0).2.getLast?
      = some ⟨.NewEventPoller 1 .EntityLinode .ActionLinodeBoot, .err "boom"⟩ := by
  decide

/-- Claim C9, amended.  An error returned by the run is either the message of
the failed size check, or it comes from the last call, which failed with some
text `e`, and is `errorMessage` of that call: `e` behind a fixed context string
that names the failing step for the shutdown, resize and boot requests, the
three completion waits, the disk read and the status wait, is the same
"failed to poll for events: " for the three watch registrations, and is absent
for the booted-configuration query, whose error is returned unchanged. -/
theorem error_message_of_failing_call {σ : Type} (client : Client σ)
    (instID diskID newSize T : Int) (s : σ) (msg : String)
    (hmsg : (run client instID diskID newSize T s).1 = some msg) :
    (∃ st e, (run client instID diskID newSize T s).2.getLast? = some st ∧
      st.reply = .err e ∧
      msg = errorMessage
        ((run client instID diskID newSize T s).2.dropLast.getLast?.map Step.call) st.call e) ∨
    (∃ d u, ⟨.GetInstanceDisk instID diskID, .disk d⟩
        ∈ (run client instID diskID newSize T s).2 ∧
      (run client instID diskID newSize T s).2.getLast?
        = some ⟨.WaitForInstanceDiskStatus instID d.ID .DiskReady T, .disk u⟩ ∧
      u.Size ≠ newSize ∧
      msg = "failed to resize disk " ++ fmtD d.ID ++ " from " ++ fmtD d.Size ++ " to "
        ++ fmtD newSize) := by
  have h := run_shape client instID diskID newSize T s
  generalize run client instID diskID newSize T s = r at h hmsg ⊢
  cases h <;> simp_all [errorMessage]

/-- Claim C9, amended, at a rejected boot request (call number 10). -/
theorem error_message_of_failing_call_witness :
    (run (scripted 7 (disk100 2000) (disk100 4000) (some 10)) 1 100 4000 60 0).1
      = some "failed to boot instance 1 7: boom" ∧
    ((∃ st e, (run (scripted 7 (disk100 2000) (disk100 4000) (some 10))
          1 100 4000 60 0).2.getLast? = some st ∧
        st.reply = .err e ∧
        "failed to boot instance 1 7: boom" = errorMessage
          ((run (scripted 7 (disk100 2000) (disk100 4000) (some 10))
            1 100 4000 60 0).2.dropLast.getLast?.map Step.call) st.call e) ∨
      (∃ d u, ⟨.GetInstanceDisk 1 100, .disk d⟩
          ∈ (run (scripted 7 (disk100 2000) (disk100 4000) (some 10)) 1 100 4000 60 0).2 ∧
        (run (scripted 7 (disk100 2000) (disk100 4000) (some 10)) 1 100 4000 60 0).2.getLast?
          = some ⟨.WaitForInstanceDiskStatus 1 d.ID .DiskReady 60, .disk u⟩ ∧
        u.Size ≠ 4000 ∧
        "failed to boot instance 1 7: boom"
          = "failed to resize disk " ++ fmtD d.ID ++ " from " ++ fmtD d.Size ++ " to "
            ++ fmtD 4000)) :=
  ⟨by decide,
    error_message_of_failing_call (scripted 7 (disk100 2000) (disk100 4000) (some 10))
      1 100 4000 60 0 "failed to boot instance 1 7: boom" (by decide)⟩

set_option maxHeartbeats 4000000 in
/-- Claim C10.  No short-circuit on an unchanged size.  When `GetInstanceDisk`
reports a size equal to `newSize`, the run makes the same sequence of calls,
and succeeds or fails alike, as when it reports any other size `z`, the
collaborators being otherwise the same.  And any run whose disk read answers a
disk of size `newSize` is the full procedure.  What precedes the disk read is
the query alone on a powered-off instance (configuration 0) and, on a booted
one, the query, the shutdown watch registration, the accepted
`ShutdownInstance` and the successful wait on that watch.  The call after the
disk read is the resize watch registration; if that succeeds,
`ResizeInstanceDisk` with `newSize` follows; if that is accepted, the wait on
the watch follows; if that succeeds, the status wait follows.  If the status
wait answers a disk of size `newSize`, the run ends there on a powered-off
instance, and on a booted one the boot watch registration follows, then, if it
succeeds, `BootInstance` with the initial configuration, then, if that is
accepted, the wait on the boot watch as the last call. -/
theorem no_noop_short_circuit {σ : Type} (client : Client σ)
    (instID diskID newSize T : Int) (s : σ) :
    (∀ z : Int,
      (run (client.withDiskSize newSize) instID diskID newSize T s).2.map Step.call
        = (run (client.withDiskSize z) instID diskID newSize T s).2.map Step.call ∧
      ((run (client.withDiskSize newSize) instID diskID newSize T s).1 = none ↔
        (run (client.withDiskSize z) instID diskID newSize T s).1 = none)) ∧
    (∀ d, d.Size = newSize →
      ⟨.GetInstanceDisk instID diskID, .disk d⟩ ∈ (run client instID diskID newSize T s).2 →
      ∃ C before r1 rest, (run client instID diskID newSize T s).2
          = before ++ ⟨.GetInstanceDisk instID diskID, .disk d⟩
            :: ⟨.NewEventPoller instID .EntityLinode .ActionDiskResize, r1⟩ :: rest ∧
        ((C = 0 ∧ before = [⟨.GetCurrentBootedConfig instID, .config 0⟩]) ∨
          (C ≠ 0 ∧ ∃ p1, before
            = [⟨.GetCurrentBootedConfig instID, .config C⟩,
               ⟨.NewEventPoller instID .EntityLinode .ActionLinodeShutdown, .poller p1⟩,
               ⟨.ShutdownInstance instID, .ok⟩,
               ⟨.WaitForFinished p1 T, .ok⟩])) ∧
        ∀ p, r1 = .poller p →
          ∃ r2 rest2, rest = ⟨.ResizeInstanceDisk instID diskID newSize, r2⟩ :: rest2 ∧
            (r2 = .ok →
              ∃ r3 rest3, rest2 = ⟨.WaitForFinished p T, r3⟩ :: rest3 ∧
                (r3 = .ok →
                  ∃ r4 rest4, rest3
                    = ⟨.WaitForInstanceDiskStatus instID d.ID .DiskReady T, r4⟩ :: rest4 ∧
                    ∀ u, r4 = .disk u → u.Size = newSize →
                      (C = 0 ∧ rest4 = []) ∨
                      (C ≠ 0 ∧ ∃ r5 rest5, rest4
                          = ⟨.NewEventPoller instID .EntityLinode .ActionLinodeBoot, r5⟩
                            :: rest5 ∧
                        ∀ p3, r5 = .poller p3 →
                          ∃ r6 rest6, rest5 = ⟨.BootInstance instID C, r6⟩ :: rest6 ∧
                            (r6 = .ok →
                              ∃ r7, rest6 = [⟨.WaitForFinished p3 T, r7⟩]))))) := by
  refine ⟨?_, ?_⟩
  · intro z
    unfold run handleDiskResize
    simp only [bind, pure, callV_withDiskSize, (withDiskSize_others client _).1,
      (withDiskSize_others client _).2.1, (withDiskSize_others client _).2.2.1,
      (withDiskSize_others client _).2.2.2.1, (withDiskSize_others client _).2.2.2.2.1,
      (withDiskSize_others client _).2.2.2.2.2.1, (withDiskSize_others client _).2.2.2.2.2.2,
      Exec.ite_run, Exec.andThen_ite, Exec.andThen_assoc, Exec.andThen_callV,
      Exec.andThen_callE, Exec.andThen_tflog, Exec.andThen_ret, Exec.andThen_fail, Exec.ret_run,
      List.nil_append, List.cons_append, bne_iff_ne, ne_eq, ite_not]
    repeat' split
    all_goals simp [errorOf]
  · have h := run_shape client instID diskID newSize T s
    generalize run client instID diskID newSize T s = r at h ⊢
    cases h <;> intro d hd hm <;> simp at hm <;> subst hm <;>
      (first
        | refine ⟨0, [_], _, _, rfl, Or.inl ⟨rfl, rfl⟩, ?_⟩
        | refine ⟨_, [_, _, _, _], _, _, rfl, Or.inr ⟨by assumption, _, rfl⟩, ?_⟩) <;>
      intro p hp <;> cases hp <;>
      exact ⟨_, _, rfl, fun h2 => by
        cases h2 <;> exact ⟨_, _, rfl, fun h3 => by
          cases h3 <;> exact ⟨_, _, rfl, fun u hu hsz => by
            cases hu <;>
              first
              | exact absurd hsz (by assumption)
              | exact Or.inl ⟨rfl, rfl⟩
              | exact Or.inr ⟨by assumption, _, _, rfl, fun p3 hp3 => by
                  cases hp3 <;> exact ⟨_, _, rfl, fun h6 => by
                    cases h6 <;> exact ⟨_, rfl⟩⟩⟩⟩⟩⟩

/-- Claim C10 at disk 100 already of size 4000 and resized to 4000 on an
instance booted under configuration 7, compared with the same disk of size
2000: the shutdown steps precede the disk read, the whole resize sequence is
made, and the boot steps follow. -/
theorem no_noop_short_circuit_witness :
    ((run ((scripted 7 (disk100 2000) (disk100 4000) none).withDiskSize 4000)
          1 100 4000 60 0).2.map Step.call
        = (run ((scripted 7 (disk100 2000) (disk100 4000) none).withDiskSize 2000)
          1 100 4000 60 0).2.map Step.call) ∧
    (disk100 4000).Size = 4000 ∧
    ⟨.GetInstanceDisk 1 100, .disk (disk100 4000)⟩
      ∈ (run (scripted 7 (disk100 4000) (disk100 4000) none) 1 100 4000 60 0).2 ∧
    ∃ C before r1 rest, (run (scripted 7 (disk100 4000) (disk100 4000) none) 1 100 4000 60 0).2
        = before ++ ⟨.GetInstanceDisk 1 100, .disk (disk100 4000)⟩
          :: ⟨.NewEventPoller 1 .EntityLinode .ActionDiskResize, r1⟩ :: rest ∧
      ((C = 0 ∧ before = [⟨.GetCurrentBootedConfig 1, .config 0⟩]) ∨
        (C ≠ 0 ∧ ∃ p1, before
          = [⟨.GetCurrentBootedConfig 1, .config C⟩,
             ⟨.NewEventPoller 1 .EntityLinode .ActionLinodeShutdown, .poller p1⟩,
             ⟨.ShutdownInstance 1, .ok⟩,
             ⟨.WaitForFinished p1 60, .ok⟩])) ∧
      ∀ p, r1 = .poller p →
        ∃ r2 rest2, rest = ⟨.ResizeInstanceDisk 1 100 4000, r2⟩ :: rest2 ∧
          (r2 = .ok →
            ∃ r3 rest3, rest2 = ⟨.WaitForFinished p 60, r3⟩ :: rest3 ∧
              (r3 = .ok →
                ∃ r4 rest4, rest3
                  = ⟨.WaitForInstanceDiskStatus 1 (disk100 4000).ID .DiskReady 60, r4⟩
                    :: rest4 ∧
                  ∀ u, r4 = .disk u → u.Size = 4000 →
                    (C = 0 ∧ rest4 = []) ∨
                    (C ≠ 0 ∧ ∃ r5 rest5, rest4
                        = ⟨.NewEventPoller 1 .EntityLinode .ActionLinodeBoot, r5⟩ :: rest5 ∧
                      ∀ p3, r5 = .poller p3 →
                        ∃ r6 rest6, rest5 = ⟨.BootInstance 1 C, r6⟩ :: rest6 ∧
                          (r6 = .ok →
                            ∃ r7, rest6 = [⟨.WaitForFinished p3 60, r7⟩])))) :=
  ⟨((no_noop_short_circuit (scripted 7 (disk100 2000) (disk100 4000) none)
      1 100 4000 60 0).1 2000).1,
    rfl, by decide,
    (no_noop_short_circuit (scripted 7 (disk100 4000) (disk100 4000) none)
      1 100 4000 60 0).2 (disk100 4000) rfl (by decide)⟩

end Linode
